import Mathlib

/-!
Verification of the TinyTasks frontend synchronization engine
(src/app/frontend/src/App.tsx) and its remote task client
(the fetchWithTimeout-based api module, App.tsx lines 444-539).

The React component state is embedded as an explicit record; each event
handler becomes a pure function from the state (plus the outcome of the
one network call it may issue) to a result record that carries the new
state, the list of network requests actually issued, the alert messages
shown, and any timers scheduled by the handler.  JS Sets become Finsets
of ids; JS string comparison becomes String equality.
-/

set_option autoImplicit false

namespace TinyTasks

/-- The Task record from api.ts: id, title, done, created_at, updated_at. -/
structure Task where
  id : String
  title : String
  done : Bool
  created_at : String
  updated_at : String
deriving DecidableEq, Repr

/-- Outcome of an awaited api call: the resolved value, or the thrown
error message. -/
inductive ApiResult (α : Type) where
  | ok (value : α)
  | error (message : String)
deriving DecidableEq, Repr

/-- A network request issued by a handler (the api call it awaits). -/
inductive Request where
  | listTasks
  | create (title : String)
  | patchDone (id : String) (done : Bool)
  | patchTitle (id : String) (title : String)
  | deleteReq (id : String)
deriving DecidableEq, Repr

/-- A setTimeout scheduled by handleDelete: delay in ms, the task id to
remove, and the value of editingId captured by the closure at the time
the handler was invoked. -/
structure ScheduledRemoval where
  delayMs : Nat
  id : String
  capturedEditingId : Option String
deriving DecidableEq, Repr

/-- The component state of App.tsx that the handlers read and write. -/
structure AppState where
  tasks : List Task
  newTitle : String
  editingId : Option String
  editingTitle : String
  adding : Bool
  pendingToggle : Finset String
  pendingDelete : Finset String
  pendingSave : Finset String
  filter : String
  appeared : Finset String
  deletingVisual : Finset String
deriving DecidableEq

/-- Result of running one handler to completion: the state after the
handler (including its finally clauses), the network requests issued,
the alerts raised, and the timers scheduled. -/
structure HandlerResult where
  state : AppState
  requests : List Request
  alerts : List String
  timers : List ScheduledRemoval
deriving DecidableEq

/-- A handler invocation that returned before doing anything. -/
def noop (s : AppState) : HandlerResult := ⟨s, [], [], []⟩

/-- Models String.prototype.trim: drop whitespace from both ends.
Defined by structural recursion over the character list so that it
evaluates on concrete inputs. -/
def jsTrim (s : String) : String :=
  ⟨((s.data.dropWhile Char.isWhitespace).reverse.dropWhile
      Char.isWhitespace).reverse⟩

/-- Embeds the withId helper (App.tsx lines 82-95): add the id to a
pending set, run the body, and in a finally clause remove the id again. -/
def withId (get : AppState → Finset String)
    (set : AppState → Finset String → AppState)
    (id : String) (s : AppState) (body : AppState → HandlerResult) :
    HandlerResult :=
  let r := body (set s (insert id (get s)))
  { r with state := set r.state ((get r.state).erase id) }

/-- Embeds handleToggle (App.tsx lines 123-135).  The guard returns
immediately if a toggle is already pending for the id; otherwise the
handler sends the inverse of the current done flag of the task and, on
success, replaces the entry by id with the returned object; on failure
it only alerts.  The outcome argument is the resolution of the awaited
toggleTaskDone call. -/
def handleToggle (s : AppState) (task : Task) (outcome : ApiResult Task) :
    HandlerResult :=
  if task.id ∈ s.pendingToggle then noop s
  else
    withId (fun a => a.pendingToggle)
      (fun a v => { a with pendingToggle := v }) task.id s (fun s1 =>
        match outcome with
        | ApiResult.ok updated =>
            ⟨{ s1 with tasks := s1.tasks.map (fun t => if t.id == task.id then updated else t) },
             [Request.patchDone task.id (!task.done)], [], []⟩
        | ApiResult.error _ =>
            ⟨s1, [Request.patchDone task.id (!task.done)],
             ["Failed to update task status"], []⟩)

/-- Embeds handleDelete (App.tsx lines 138-174).  Guard order follows
the source: first the pending check, then the confirm dialog.  On
success the id is added to deletingVisual and a 180ms timer is
scheduled; the timer callback closes over the editingId current at
invocation time.  On failure nothing but an alert happens.  The finally
clause of withId clears the pending marker in every case. -/
def handleDelete (s : AppState) (task : Task) (confirmed : Bool)
    (outcome : ApiResult Unit) : HandlerResult :=
  if task.id ∈ s.pendingDelete then noop s
  else if !confirmed then noop s
  else
    withId (fun a => a.pendingDelete)
      (fun a v => { a with pendingDelete := v }) task.id s (fun s1 =>
        match outcome with
        | ApiResult.ok _ =>
            ⟨{ s1 with deletingVisual := insert task.id s1.deletingVisual },
             [Request.deleteReq task.id], [],
             [⟨180, task.id, s.editingId⟩]⟩
        | ApiResult.error _ =>
            ⟨s1, [Request.deleteReq task.id],
             ["Failed to delete task"], []⟩)

/-- Embeds the setTimeout callback inside handleDelete (App.tsx lines
150-168): remove the task from the list, drop the id from
deletingVisual, reset the edit state if the editingId captured by the
closure equals the deleted id, and drop the id from appeared. -/
def deleteTimerFired (id : String) (capturedEditingId : Option String)
    (s : AppState) : AppState :=
  let s1 := { s with
    tasks := s.tasks.filter (fun t => t.id != id),
    deletingVisual := s.deletingVisual.erase id }
  let s2 :=
    if capturedEditingId = some id then
      { s1 with editingId := none, editingTitle := "" }
    else s1
  { s2 with appeared := s2.appeared.erase id }

/-- Embeds handleAddTask (App.tsx lines 98-120): no-op when the trimmed
title is empty or a create is already in flight; otherwise set adding,
await createTask, prepend the created task and clear the input on
success, alert on failure, and reset adding in the finally clause. -/
def handleAddTask (s : AppState) (outcome : ApiResult Task) :
    HandlerResult :=
  let title := jsTrim s.newTitle
  if title = "" ∨ s.adding = true then noop s
  else
    let s1 := { s with adding := true }
    match outcome with
    | ApiResult.ok created =>
        ⟨{ s1 with
            tasks := created :: s1.tasks,
            newTitle := "",
            appeared := s1.appeared.erase created.id,
            adding := false },
         [Request.create title], [], []⟩
    | ApiResult.error _ =>
        ⟨{ s1 with adding := false },
         [Request.create title], ["Failed to create task"], []⟩

/-- Embeds startEdit (App.tsx lines 177-180): purely local, sets the
edit draft to the id and current title of the clicked task. -/
def startEdit (s : AppState) (task : Task) : AppState :=
  { s with editingId := some task.id, editingTitle := task.title }

/-- Embeds cancelEdit (App.tsx lines 183-186). -/
def cancelEdit (s : AppState) : AppState :=
  { s with editingId := none, editingTitle := "" }

/-- Embeds saveEdit (App.tsx lines 189-203): no-op when the trimmed
draft title is empty or a save is already pending for the id; otherwise
await updateTaskTitle, replace the entry by id and clear the draft on
success, alert on failure; the finally clause of withId clears the pending marker. -/
def saveEdit (s : AppState) (task : Task) (outcome : ApiResult Task) :
    HandlerResult :=
  let title := jsTrim s.editingTitle
  if title = "" ∨ task.id ∈ s.pendingSave then noop s
  else
    withId (fun a => a.pendingSave)
      (fun a v => { a with pendingSave := v }) task.id s (fun s1 =>
        match outcome with
        | ApiResult.ok updated =>
            ⟨{ s1 with
                tasks := s1.tasks.map (fun t => if t.id == task.id then updated else t),
                editingId := none,
                editingTitle := "" },
             [Request.patchTitle task.id title], [], []⟩
        | ApiResult.error _ =>
            ⟨s1, [Request.patchTitle task.id title],
             ["Failed to update title"], []⟩)

/-- Embeds the visibleTasks projection (App.tsx lines 209-211):
filter is the string state "all" or "open" or "done". -/
def visibleTasks (filter : String) (tasks : List Task) : List Task :=
  tasks.filter (fun t =>
    if filter == "all" then true
    else if filter == "done" then t.done
    else !t.done)

/-- The isToggling render flag (App.tsx line 315). -/
def isToggling (s : AppState) (t : Task) : Bool :=
  decide (t.id ∈ s.pendingToggle)

/-- The isDeleting render flag (App.tsx line 316). -/
def isDeleting (s : AppState) (t : Task) : Bool :=
  decide (t.id ∈ s.pendingDelete)

/-- The isSaving render flag (App.tsx line 317). -/
def isSaving (s : AppState) (t : Task) : Bool :=
  decide (t.id ∈ s.pendingSave)

/-- The isFadingOut render flag (App.tsx line 321). -/
def isFadingOut (s : AppState) (t : Task) : Bool :=
  decide (t.id ∈ s.deletingVisual)

/-- The disabled attribute of the toggle button (App.tsx line 395):
isToggling or isFadingOut. -/
def toggleButtonDisabled (s : AppState) (t : Task) : Bool :=
  isToggling s t || isFadingOut s t

/-- The disabled attribute of the delete button (App.tsx line 410):
isDeleting or isFadingOut. -/
def deleteButtonDisabled (s : AppState) (t : Task) : Bool :=
  isDeleting s t || isFadingOut s t

/-- The Edit button (App.tsx lines 384-390) carries no disabled
attribute in its JSX, so it is never disabled. -/
def editButtonDisabled (_s : AppState) (_t : Task) : Bool :=
  false

/-! ## Remote task client (App.tsx lines 444-539)

The network is modelled by a behavior: the underlying fetch either
resolves at some time with an HTTP response, rejects at some time with a
non-abort error, or never resolves.  fetchWithTimeout arms a timer that
aborts the request after timeoutMs; a resolution strictly before the
timer wins, otherwise the request is aborted and the timeout error is
thrown. -/

/-- DEFAULT_TIMEOUT_MS from the api module. -/
def DEFAULT_TIMEOUT_MS : Nat := 15000

/-- An HTTP response as the client observes it: ok flag, status, the
body text, and the decoded JSON payload used when ok. -/
structure HttpResponse (α : Type) where
  ok : Bool
  status : Nat
  text : String
  json : α
deriving DecidableEq, Repr

/-- Behavior of one underlying fetch. -/
inductive NetBehavior (α : Type) where
  | respondsAt (timeMs : Nat) (resp : HttpResponse α)
  | failsAt (timeMs : Nat) (msg : String)
  | never
deriving DecidableEq, Repr

/-- What fetchWithTimeout produced: the resolved response or the thrown
error, together with whether the AbortController cancelled the request. -/
structure FetchResult (α : Type) where
  outcome : ApiResult (HttpResponse α)
  aborted : Bool
deriving DecidableEq, Repr

/-- The error message thrown on abort (App.tsx line 459). -/
def timeoutMessage (timeoutMs : Nat) : String :=
  "Request timed out after " ++ toString timeoutMs ++ "ms"

/-- Embeds fetchWithTimeout (App.tsx lines 447-465). -/
def fetchWithTimeout (timeoutMs : Nat) {α : Type} (net : NetBehavior α) :
    FetchResult α :=
  match net with
  | NetBehavior.respondsAt t resp =>
      if t < timeoutMs then ⟨ApiResult.ok resp, false⟩
      else ⟨ApiResult.error (timeoutMessage timeoutMs), true⟩
  | NetBehavior.failsAt t msg =>
      if t < timeoutMs then ⟨ApiResult.error msg, false⟩
      else ⟨ApiResult.error (timeoutMessage timeoutMs), true⟩
  | NetBehavior.never =>
      ⟨ApiResult.error (timeoutMessage timeoutMs), true⟩

/-- Embeds safeReadText (App.tsx lines 494-501): the body text, or a
placeholder when it is empty. -/
def safeReadText (text : String) : String :=
  if text = "" then "<empty>" else text

/-- Embeds fetchTasks (App.tsx lines 468-475).  The second component
records whether the underlying request was cancelled by the timeout. -/
def fetchTasks (net : NetBehavior (List Task)) :
    ApiResult (List Task) × Bool :=
  let r := fetchWithTimeout DEFAULT_TIMEOUT_MS net
  match r.outcome with
  | ApiResult.ok res =>
      if !res.ok then
        (ApiResult.error ("GET /api/tasks → HTTP " ++ toString res.status ++ ": " ++ safeReadText res.text), r.aborted)
      else (ApiResult.ok res.json, r.aborted)
  | ApiResult.error m => (ApiResult.error m, r.aborted)

/-- Embeds createTask (App.tsx lines 479-491). -/
def createTask (title : String) (net : NetBehavior Task) :
    ApiResult Task × Bool :=
  let _body := title
  let r := fetchWithTimeout DEFAULT_TIMEOUT_MS net
  match r.outcome with
  | ApiResult.ok res =>
      if !res.ok then
        (ApiResult.error ("POST /api/tasks → HTTP " ++ toString res.status ++ ": " ++ safeReadText res.text), r.aborted)
      else (ApiResult.ok res.json, r.aborted)
  | ApiResult.error m => (ApiResult.error m, r.aborted)

/-- Embeds toggleTaskDone (App.tsx lines 504-515). -/
def toggleTaskDone (id : String) (done : Bool) (net : NetBehavior Task) :
    ApiResult Task × Bool :=
  let _body := done
  let r := fetchWithTimeout DEFAULT_TIMEOUT_MS net
  match r.outcome with
  | ApiResult.ok res =>
      if !res.ok then
        (ApiResult.error ("PATCH /api/tasks/" ++ id ++ " → HTTP " ++ toString res.status ++ ": " ++ safeReadText res.text), r.aborted)
      else (ApiResult.ok res.json, r.aborted)
  | ApiResult.error m => (ApiResult.error m, r.aborted)

/-- Embeds deleteTask (App.tsx lines 518-525): a 204 success carries no
body, so the success value is the unit. -/
def deleteTask (id : String) (net : NetBehavior Unit) :
    ApiResult Unit × Bool :=
  let r := fetchWithTimeout DEFAULT_TIMEOUT_MS net
  match r.outcome with
  | ApiResult.ok res =>
      if !res.ok then
        (ApiResult.error ("DELETE /api/tasks/" ++ id ++ " → HTTP " ++ toString res.status ++ ": " ++ safeReadText res.text), r.aborted)
      else (ApiResult.ok (), r.aborted)
  | ApiResult.error m => (ApiResult.error m, r.aborted)

/-- Embeds updateTaskTitle (App.tsx lines 528-539). -/
def updateTaskTitle (id : String) (title : String) (net : NetBehavior Task) :
    ApiResult Task × Bool :=
  let _body := title
  let r := fetchWithTimeout DEFAULT_TIMEOUT_MS net
  match r.outcome with
  | ApiResult.ok res =>
      if !res.ok then
        (ApiResult.error ("PATCH /api/tasks/" ++ id ++ " → HTTP " ++ toString res.status ++ ": " ++ safeReadText res.text), r.aborted)
      else (ApiResult.ok res.json, r.aborted)
  | ApiResult.error m => (ApiResult.error m, r.aborted)

/-- No response (resolution or rejection) arrives within the budget. -/
def noResponseWithin (budget : Nat) {α : Type} : NetBehavior α → Prop
  | NetBehavior.respondsAt t _ => budget ≤ t
  | NetBehavior.failsAt t _ => budget ≤ t
  | NetBehavior.never => True

/-- The done flag of the task with the given id, as stored in a list. -/
def doneOf (ts : List Task) (id : String) : Option Bool :=
  (ts.find? (fun t => t.id == id)).map Task.done

/-! ## Sample data for concrete evaluations -/

/-- A sample open task with id t1. -/
def taskT1 : Task :=
  { id := "t1", title := "Buy milk", done := false,
    created_at := "2024-01-01", updated_at := "2024-01-01" }

/-- A sample done task with id t2. -/
def taskT2 : Task :=
  { id := "t2", title := "Walk dog", done := true,
    created_at := "2024-01-02", updated_at := "2024-01-02" }

/-- A quiescent state holding the two sample tasks. -/
def baseState : AppState :=
  { tasks := [taskT1, taskT2], newTitle := "", editingId := none,
    editingTitle := "", adding := false, pendingToggle := ∅,
    pendingDelete := ∅, pendingSave := ∅, filter := "all",
    appeared := ∅, deletingVisual := ∅ }

/-- A state in which every kind of operation is already in flight for
t1 and a create is pending. -/
def busyState : AppState :=
  { tasks := [taskT1], newTitle := "x", editingId := none,
    editingTitle := "y", adding := true, pendingToggle := {"t1"},
    pendingDelete := {"t1"}, pendingSave := {"t1"}, filter := "all",
    appeared := ∅, deletingVisual := ∅ }

/-- A state with an empty list and the add input holding Buy milk. -/
def addState : AppState :=
  { tasks := [], newTitle := "Buy milk", editingId := none,
    editingTitle := "", adding := false, pendingToggle := ∅,
    pendingDelete := ∅, pendingSave := ∅, filter := "all",
    appeared := ∅, deletingVisual := ∅ }

/-- A state in which t1 is being edited with a typed draft. -/
def editState : AppState :=
  { baseState with editingId := some "t1", editingTitle := "Buy oat milk" }

/-- A state in which t1 is inside the fade-out grace window. -/
def fadingState : AppState :=
  { baseState with deletingVisual := {"t1"} }

/-! ## Claim theorems -/

/-- C1: for every task id and operation kind, at most one operation of
that kind is in flight: a toggle, delete or save invoked while the same
kind is already pending for that id, or an add while the create flag is
set, returns immediately as a no-op and issues no network call; and no
single invocation ever issues more than one request. -/
theorem c1_pending_guard (s : AppState) (task : Task) (confirmed : Bool)
    (oT oS oA : ApiResult Task) (oD : ApiResult Unit) :
    (task.id ∈ s.pendingToggle → handleToggle s task oT = noop s) ∧
    (task.id ∈ s.pendingDelete → handleDelete s task confirmed oD = noop s) ∧
    (task.id ∈ s.pendingSave → saveEdit s task oS = noop s) ∧
    (s.adding = true → handleAddTask s oA = noop s) ∧
    (handleToggle s task oT).requests.length ≤ 1 ∧
    (handleDelete s task confirmed oD).requests.length ≤ 1 ∧
    (saveEdit s task oS).requests.length ≤ 1 ∧
    (handleAddTask s oA).requests.length ≤ 1 := by
  refine ⟨?_, ?_, ?_, ?_, ?_, ?_, ?_, ?_⟩
  · intro h; simp [handleToggle, h]
  · intro h; simp [handleDelete, h]
  · intro h; simp [saveEdit, h]
  · intro h; simp [handleAddTask, h]
  · by_cases h : task.id ∈ s.pendingToggle
    · simp [handleToggle, h, noop]
    · cases oT <;> simp [handleToggle, h, withId, noop]
  · by_cases h : task.id ∈ s.pendingDelete
    · simp [handleDelete, h, noop]
    · cases confirmed <;> cases oD <;> simp [handleDelete, h, withId, noop]
  · by_cases h : jsTrim s.editingTitle = "" ∨ task.id ∈ s.pendingSave
    · simp [saveEdit, h, noop]
    · cases oS <;> simp [saveEdit, h, withId, noop]
  · by_cases h : jsTrim s.newTitle = "" ∨ s.adding = true
    · simp [handleAddTask, h, noop]
    · cases oA <;> simp [handleAddTask, h, noop]

/-- C1 witness: in the busy state every guarded handler is a no-op. -/
theorem c1_pending_guard_witness :
    handleToggle busyState taskT1 (ApiResult.ok taskT2) = noop busyState ∧
    handleDelete busyState taskT1 true (ApiResult.ok ()) = noop busyState ∧
    saveEdit busyState taskT1 (ApiResult.ok taskT2) = noop busyState ∧
    handleAddTask busyState (ApiResult.ok taskT2) = noop busyState := by
  have h := c1_pending_guard busyState taskT1 true (ApiResult.ok taskT2)
    (ApiResult.ok taskT2) (ApiResult.ok taskT2) (ApiResult.ok ())
  exact ⟨h.1 (by decide), h.2.1 (by decide), h.2.2.1 (by decide),
    h.2.2.2.1 (by decide)⟩

/-- C3: if a toggle call proceeds (was not already pending) and fails,
the canonical tasks list is unchanged, hence the done flag of the task
equals its value immediately before the call, and the pending-toggle
marker for the id is cleared. -/
theorem c3_toggle_failure_rollback (s : AppState) (task : Task)
    (msg : String) (h : task.id ∉ s.pendingToggle) :
    (handleToggle s task (ApiResult.error msg)).state.tasks = s.tasks ∧
    doneOf (handleToggle s task (ApiResult.error msg)).state.tasks task.id =
      doneOf s.tasks task.id ∧
    task.id ∉ (handleToggle s task (ApiResult.error msg)).state.pendingToggle ∧
    (handleToggle s task (ApiResult.error msg)).state.pendingToggle =
      s.pendingToggle := by
  simp [handleToggle, h, withId, noop, Finset.erase_insert h]

/-- C3 witness: a failing toggle on t1 in the quiescent state leaves
the list and the done flag of t1 unchanged and clears the marker. -/
theorem c3_toggle_failure_rollback_witness :
    (handleToggle baseState taskT1 (ApiResult.error "boom")).state.tasks =
      baseState.tasks ∧
    doneOf (handleToggle baseState taskT1 (ApiResult.error "boom")).state.tasks
      taskT1.id = some false ∧
    taskT1.id ∉ (handleToggle baseState taskT1
      (ApiResult.error "boom")).state.pendingToggle := by
  have h := c3_toggle_failure_rollback baseState taskT1 "boom" (by decide)
  exact ⟨h.1, by rw [h.2.1]; decide, h.2.2.1⟩

/-- C4: handleAddTask is a no-op when the trimmed title is empty or a
create is already pending; when it proceeds, server confirmation
prepends the returned task and clears the input, and failure leaves the
list and the input unchanged. -/
theorem c4_add_contract (s : AppState) (created : Task) (msg : String) :
    (∀ o : ApiResult Task,
      jsTrim s.newTitle = "" ∨ s.adding = true → handleAddTask s o = noop s) ∧
    (jsTrim s.newTitle ≠ "" → s.adding = false →
      (handleAddTask s (ApiResult.ok created)).state.tasks =
        created :: s.tasks ∧
      (handleAddTask s (ApiResult.ok created)).state.newTitle = "" ∧
      (handleAddTask s (ApiResult.error msg)).state.tasks = s.tasks ∧
      (handleAddTask s (ApiResult.error msg)).state.newTitle = s.newTitle) := by
  constructor
  · intro o h; simp [handleAddTask, h, noop]
  · intro h1 h2
    simp [handleAddTask, h1, h2]

/-- C4 witness: the spec scenario, an empty list plus a successful
add of Buy milk with server-assigned id t1. -/
theorem c4_add_contract_witness :
    (handleAddTask addState (ApiResult.ok taskT1)).state.tasks = [taskT1] ∧
    (handleAddTask addState (ApiResult.ok taskT1)).state.newTitle = "" ∧
    (handleAddTask addState (ApiResult.error "boom")).state.tasks = [] := by
  have h := (c4_add_contract addState taskT1 "boom").2 (by decide) (by decide)
  exact ⟨h.1, h.2.1, h.2.2.1⟩

/-- C5: when saveEdit proceeds (non-empty trimmed draft, no save
pending) and fails, the edit draft and the list are exactly as before
the call and the pending marker is cleared; on success the entry is
replaced by id with the returned object and the draft is cleared. -/
theorem c5_save_edit_contract (s : AppState) (task updated : Task)
    (msg : String) (h1 : jsTrim s.editingTitle ≠ "")
    (h2 : task.id ∉ s.pendingSave) :
    ((saveEdit s task (ApiResult.error msg)).state.editingId = s.editingId ∧
     (saveEdit s task (ApiResult.error msg)).state.editingTitle =
       s.editingTitle ∧
     (saveEdit s task (ApiResult.error msg)).state.tasks = s.tasks ∧
     task.id ∉ (saveEdit s task (ApiResult.error msg)).state.pendingSave) ∧
    ((saveEdit s task (ApiResult.ok updated)).state.tasks =
       s.tasks.map (fun t => if t.id == task.id then updated else t) ∧
     (saveEdit s task (ApiResult.ok updated)).state.editingId = none ∧
     (saveEdit s task (ApiResult.ok updated)).state.editingTitle = "") := by
  have hcond : ¬ (jsTrim s.editingTitle = "" ∨ task.id ∈ s.pendingSave) := by
    rintro (h | h)
    · exact h1 h
    · exact h2 h
  simp [saveEdit, hcond, withId, noop]

/-- C5 witness: a failing save of the typed draft for t1 keeps the
draft text, a successful one replaces the entry and clears it. -/
theorem c5_save_edit_contract_witness :
    (saveEdit editState taskT1 (ApiResult.error "boom")).state.editingId =
      some "t1" ∧
    (saveEdit editState taskT1 (ApiResult.error "boom")).state.editingTitle =
      "Buy oat milk" ∧
    (saveEdit editState taskT1 (ApiResult.error "boom")).state.tasks =
      editState.tasks ∧
    (saveEdit editState taskT1 (ApiResult.ok taskT2)).state.editingId =
      none := by
  have h := c5_save_edit_contract editState taskT1 taskT2 "boom"
    (by decide) (by decide)
  exact ⟨h.1.1, h.1.2.1, h.1.2.2.1, h.2.2.1⟩

/-- C10: startEdit on task b while a draft for a different task a is
open silently replaces the draft with the id and current title of b,
discarding the typed text, with no change to the canonical list, the
pending sets or the create flag (startEdit is purely local and issues
no request). -/
theorem c10_start_edit_overwrites (s : AppState) (a b : Task)
    (h1 : s.editingId = some a.id) (h2 : a.id ≠ b.id) :
    (startEdit s b).editingId = some b.id ∧
    (startEdit s b).editingTitle = b.title ∧
    (startEdit s b).editingId ≠ s.editingId ∧
    (startEdit s b).tasks = s.tasks ∧
    (startEdit s b).pendingToggle = s.pendingToggle ∧
    (startEdit s b).pendingDelete = s.pendingDelete ∧
    (startEdit s b).pendingSave = s.pendingSave ∧
    (startEdit s b).adding = s.adding := by
  refine ⟨rfl, rfl, ?_, rfl, rfl, rfl, rfl, rfl⟩
  rw [h1]
  simp [startEdit]
  exact fun he => h2 he.symm

/-- C10 witness: starting an edit of t2 while the draft of t1 is open. -/
theorem c10_start_edit_overwrites_witness :
    (startEdit editState taskT2).editingId = some "t2" ∧
    (startEdit editState taskT2).editingTitle = "Walk dog" ∧
    (startEdit editState taskT2).tasks = editState.tasks := by
  have h := c10_start_edit_overwrites editState taskT1 taskT2
    (by decide) (by decide)
  exact ⟨h.1, h.2.1, h.2.2.2.1⟩

/-- The state after a confirmed delete of t1 from the quiescent state:
t1 is fading and a 180ms removal timer is scheduled whose closure
captured editingId = none. -/
def c6AfterDelete : HandlerResult :=
  handleDelete baseState taskT1 true (ApiResult.ok ())

/-- During the grace window the user clicks Edit on the fading t1 (the
Edit button is not disabled), so the draft now holds t1. -/
def c6MidWindow : AppState := startEdit c6AfterDelete.state taskT1

/-- The state after the removal timer fires: the callback compares the
deleted id against the editingId captured at delete time (none), not
against the current one. -/
def c6Final : AppState := deleteTimerFired "t1" none c6MidWindow

/-- C6 counterexample: the claim that at no observable point the edit
draft references a task id absent from the canonical list fails.  After
a confirmed delete of t1 (draft empty, so the timer captured none), an
edit of the fading t1 begun during the grace window survives the timer:
the final draft holds t1 while no task with id t1 remains. -/
theorem c6_counterexample :
    c6AfterDelete.timers = [⟨180, "t1", none⟩] ∧
    c6Final.editingId = some "t1" ∧
    c6Final.tasks.all (fun t => t.id != "t1") = true := by
  decide

/-- C6 amended: provided the edit draft does not change between the
delete invocation and the timer firing (the captured editingId equals
the current one), the timer that removes the task also clears a draft
holding the deleted id in the same step, and a draft pointing at a
still-present task keeps pointing at a present task. -/
theorem c6_amended (s : AppState) (id : String) (cap : Option String)
    (hcap : cap = s.editingId)
    (hinv : ∀ x, s.editingId = some x →
      s.tasks.any (fun t => t.id == x) = true) :
    (s.editingId = some id →
      (deleteTimerFired id cap s).editingId = none ∧
      (deleteTimerFired id cap s).editingTitle = "") ∧
    (∀ x, (deleteTimerFired id cap s).editingId = some x →
      (deleteTimerFired id cap s).tasks.any (fun t => t.id == x) = true) := by
  subst hcap
  by_cases hid : s.editingId = some id
  · constructor
    · intro _
      simp [deleteTimerFired, hid]
    · intro x hx
      simp [deleteTimerFired, hid] at hx
  · have hred : deleteTimerFired id s.editingId s = { s with
        tasks := s.tasks.filter (fun t => t.id != id),
        deletingVisual := s.deletingVisual.erase id,
        appeared := s.appeared.erase id } := by
      simp only [deleteTimerFired]
      rw [if_neg hid]
    constructor
    · intro h
      exact absurd h hid
    · intro x hx
      rw [hred] at hx
      rw [hred]
      have hx2 : s.editingId = some x := hx
      have hxid : x ≠ id := fun he => hid (he ▸ hx2)
      have hbase := hinv x hx2
      show (s.tasks.filter (fun t => t.id != id)).any
        (fun t => t.id == x) = true
      simp only [List.any_eq_true, List.mem_filter] at hbase ⊢
      rcases hbase with ⟨t, ht, htx⟩
      have htid : t.id = x := by simpa using htx
      exact ⟨t, ⟨ht, by simp [htid, hxid]⟩, htx⟩

/-- C6 amended witness: deleting t1 while its draft is open (captured
draft equal to the current one) clears the draft when the timer fires. -/
theorem c6_amended_witness :
    (deleteTimerFired "t1" (some "t1") editState).editingId = none ∧
    (deleteTimerFired "t1" (some "t1") editState).editingTitle = "" := by
  have h := c6_amended editState "t1" (some "t1") (by rfl)
    (by
      intro x hx
      rw [show editState.editingId = some "t1" from rfl] at hx
      injection hx with hx1
      subst hx1
      decide)
  exact h.1 (by rfl)

/-- C7 counterexample: while t1 is inside the fade-out grace window the
claim that all of its controls are disabled fails for the Edit control;
the Edit button carries no disabled attribute, so it stays enabled. -/
theorem c7_counterexample :
    ("t1" ∈ fadingState.deletingVisual) ∧
    isFadingOut fadingState taskT1 = true ∧
    editButtonDisabled fadingState taskT1 = false := by
  decide

/-- C7 amended: during the grace window the toggle and delete controls
of the fading item are disabled; the Edit control is not. -/
theorem c7_amended (s : AppState) (t : Task)
    (h : t.id ∈ s.deletingVisual) :
    toggleButtonDisabled s t = true ∧
    deleteButtonDisabled s t = true ∧
    editButtonDisabled s t = false := by
  simp [toggleButtonDisabled, deleteButtonDisabled, editButtonDisabled,
    isToggling, isDeleting, isFadingOut, h]

/-- C7 amended witness: applied to the fading t1. -/
theorem c7_amended_witness :
    toggleButtonDisabled fadingState taskT1 = true ∧
    deleteButtonDisabled fadingState taskT1 = true := by
  have h := c7_amended fadingState taskT1 (by decide)
  exact ⟨h.1, h.2.1⟩

/-- C8: a delete that proceeds and fails leaves the canonical list
unchanged, schedules no removal timer and leaves the fade set alone; a
confirmed delete leaves the canonical list unchanged at completion and
schedules exactly one 180ms removal timer, whose firing removes
precisely the tasks with the deleted id; without the user confirmation
nothing happens at all. -/
theorem c8_delete_contract (s : AppState) (task : Task) (msg : String)
    (h : task.id ∉ s.pendingDelete) :
    ((handleDelete s task true (ApiResult.error msg)).state.tasks = s.tasks ∧
     (handleDelete s task true (ApiResult.error msg)).timers = [] ∧
     (handleDelete s task true (ApiResult.error msg)).state.deletingVisual =
       s.deletingVisual) ∧
    ((handleDelete s task true (ApiResult.ok ())).state.tasks = s.tasks ∧
     (handleDelete s task true (ApiResult.ok ())).timers =
       [⟨180, task.id, s.editingId⟩] ∧
     (handleDelete s task true (ApiResult.ok ())).state.deletingVisual =
       insert task.id s.deletingVisual ∧
     (∀ s2 cap, (deleteTimerFired task.id cap s2).tasks =
       s2.tasks.filter (fun t2 => t2.id != task.id))) ∧
    (∀ o, handleDelete s task false o = noop s) := by
  refine ⟨?_, ⟨?_, ?_, ?_, ?_⟩, ?_⟩
  · simp [handleDelete, h, withId]
  · simp [handleDelete, h, withId]
  · simp [handleDelete, h, withId]
  · simp [handleDelete, h, withId]
  · intro s2 cap
    by_cases hc : cap = some task.id <;> simp [deleteTimerFired, hc]
  · intro o
    simp [handleDelete, h, noop]

/-- C8 witness: a failing then a succeeding confirmed delete of t1 in
the quiescent state. -/
theorem c8_delete_contract_witness :
    (handleDelete baseState taskT1 true (ApiResult.error "boom")).state.tasks =
      baseState.tasks ∧
    (handleDelete baseState taskT1 true (ApiResult.error "boom")).timers =
      [] ∧
    (handleDelete baseState taskT1 true (ApiResult.ok ())).timers =
      [⟨180, "t1", none⟩] ∧
    (deleteTimerFired taskT1.id none baseState).tasks = [taskT2] := by
  have h := c8_delete_contract baseState taskT1 "boom" (by decide)
  refine ⟨h.1.1, h.1.2.1, h.2.1.2.1, ?_⟩
  rw [h.2.1.2.2.2 baseState none]
  decide

/-- When no response arrives within the budget, fetchWithTimeout aborts
the request and throws the timeout error. -/
theorem fetchWithTimeout_of_noResponse {α : Type} (b : Nat)
    (net : NetBehavior α) (h : noResponseWithin b net) :
    fetchWithTimeout b net =
      ⟨ApiResult.error (timeoutMessage b), true⟩ := by
  cases net with
  | respondsAt t resp =>
      simp only [noResponseWithin] at h
      simp [fetchWithTimeout, Nat.not_lt.mpr h]
  | failsAt t msg =>
      simp only [noResponseWithin] at h
      simp [fetchWithTimeout, Nat.not_lt.mpr h]
  | never => rfl

/-- C2: every remote task client operation runs under the default 15000
ms budget; when no response arrives within the budget, the in-flight
request is cancelled (the abort flag is set) and the timeout error is
raised to the caller, for list, create, setDone, setTitle and remove
alike. -/
theorem c2_timeout_bound (netL : NetBehavior (List Task))
    (netC netT netU : NetBehavior Task) (netD : NetBehavior Unit)
    (title id ntitle : String) (done : Bool)
    (hL : noResponseWithin DEFAULT_TIMEOUT_MS netL)
    (hC : noResponseWithin DEFAULT_TIMEOUT_MS netC)
    (hT : noResponseWithin DEFAULT_TIMEOUT_MS netT)
    (hU : noResponseWithin DEFAULT_TIMEOUT_MS netU)
    (hD : noResponseWithin DEFAULT_TIMEOUT_MS netD) :
    DEFAULT_TIMEOUT_MS = 15000 ∧
    fetchTasks netL =
      (ApiResult.error (timeoutMessage DEFAULT_TIMEOUT_MS), true) ∧
    createTask title netC =
      (ApiResult.error (timeoutMessage DEFAULT_TIMEOUT_MS), true) ∧
    toggleTaskDone id done netT =
      (ApiResult.error (timeoutMessage DEFAULT_TIMEOUT_MS), true) ∧
    updateTaskTitle id ntitle netU =
      (ApiResult.error (timeoutMessage DEFAULT_TIMEOUT_MS), true) ∧
    deleteTask id netD =
      (ApiResult.error (timeoutMessage DEFAULT_TIMEOUT_MS), true) := by
  refine ⟨rfl, ?_, ?_, ?_, ?_, ?_⟩
  · simp [fetchTasks, fetchWithTimeout_of_noResponse DEFAULT_TIMEOUT_MS netL hL]
  · simp [createTask, fetchWithTimeout_of_noResponse DEFAULT_TIMEOUT_MS netC hC]
  · simp [toggleTaskDone,
      fetchWithTimeout_of_noResponse DEFAULT_TIMEOUT_MS netT hT]
  · simp [updateTaskTitle,
      fetchWithTimeout_of_noResponse DEFAULT_TIMEOUT_MS netU hU]
  · simp [deleteTask, fetchWithTimeout_of_noResponse DEFAULT_TIMEOUT_MS netD hD]

/-- C2 witness: against a network that never responds, all five
operations abort and report the 15000 ms timeout. -/
theorem c2_timeout_bound_witness :
    fetchTasks NetBehavior.never =
      (ApiResult.error (timeoutMessage DEFAULT_TIMEOUT_MS), true) ∧
    createTask "Buy milk" NetBehavior.never =
      (ApiResult.error (timeoutMessage DEFAULT_TIMEOUT_MS), true) ∧
    toggleTaskDone "t1" true NetBehavior.never =
      (ApiResult.error (timeoutMessage DEFAULT_TIMEOUT_MS), true) ∧
    updateTaskTitle "t1" "Buy oat milk" NetBehavior.never =
      (ApiResult.error (timeoutMessage DEFAULT_TIMEOUT_MS), true) ∧
    deleteTask "t1" NetBehavior.never =
      (ApiResult.error (timeoutMessage DEFAULT_TIMEOUT_MS), true) := by
  have h := c2_timeout_bound NetBehavior.never NetBehavior.never
    NetBehavior.never NetBehavior.never NetBehavior.never
    "Buy milk" "t1" "Buy oat milk" true
    trivial trivial trivial trivial trivial
  exact ⟨h.2.1, h.2.2.1, h.2.2.2.1, h.2.2.2.2.1, h.2.2.2.2.2⟩

/-- C9: the filtering projection is a pure derivation over the
canonical list: the all filter yields the whole list in order, the open
filter yields exactly the tasks with done false, the done filter
exactly those with done true; the canonical list is an input the
projection never changes, so re-deriving with the all filter after any
other filter yields the original list. -/
theorem c9_filter_projection (ts : List Task) (t : Task) :
    visibleTasks "all" ts = ts ∧
    visibleTasks "open" ts = ts.filter (fun x => !x.done) ∧
    visibleTasks "done" ts = ts.filter (fun x => x.done) ∧
    (t ∈ visibleTasks "open" ts ↔ t ∈ ts ∧ t.done = false) ∧
    (t ∈ visibleTasks "done" ts ↔ t ∈ ts ∧ t.done = true) := by
  refine ⟨?_, rfl, rfl, ?_, ?_⟩
  · show ts.filter (fun _ => true) = ts
    simp
  · show t ∈ ts.filter (fun x => !x.done) ↔ t ∈ ts ∧ t.done = false
    simp [List.mem_filter]
  · show t ∈ ts.filter (fun x => x.done) ↔ t ∈ ts ∧ t.done = true
    simp [List.mem_filter]

end TinyTasks
